import Mathlib

/-!
Formal model of the rule-based resume scorer in `standard_ats_analyzer.py`
(`StandardATSAnalyzer`).  Python strings are modelled as `List Char`
(ASCII-level semantics: `str.lower`, `str.strip`, `str.split`, `re` character
classes are interpreted over ASCII, which covers every keyword table and
pattern the analyzer uses).  Python integers are modelled as `Int`.  Each
`_evaluate_*` method of the class becomes a Lean function of the same data;
regular-expression searches are modelled by executable matchers whose doc
comments name the pattern they implement.
-/

namespace ATS

/-- Characters removed by Python `str.strip()` / matched by `\s` (ASCII). -/
def pyIsSpace (c : Char) : Bool := c.isWhitespace

/-- Python `str.strip()`: drop leading and trailing whitespace. -/
def pyStrip (s : List Char) : List Char :=
  ((s.dropWhile pyIsSpace).reverse.dropWhile pyIsSpace).reverse

/-- Python `str.lower()` (ASCII letters). -/
def pyLower (s : List Char) : List Char := s.map Char.toLower

/-- Accumulator for `pySplitWS`: `acc` is the current token, reversed. -/
def splitWSAux : List Char → List Char → List (List Char)
  | [], acc => if acc.isEmpty then [] else [acc.reverse]
  | c :: rest, acc =>
    if pyIsSpace c then
      if acc.isEmpty then splitWSAux rest []
      else acc.reverse :: splitWSAux rest []
    else splitWSAux rest (c :: acc)

/-- Python `str.split()` with no argument: split on whitespace runs,
producing no empty tokens. -/
def pySplitWS (s : List Char) : List (List Char) := splitWSAux s []

/-- Accumulator for `pySplitNL`. -/
def splitNLAux : List Char → List Char → List (List Char)
  | [], acc => [acc.reverse]
  | c :: rest, acc =>
    if c = '\n' then acc.reverse :: splitNLAux rest []
    else splitNLAux rest (c :: acc)

/-- Python `str.split('\n')`: split at newlines, keeping empty pieces. -/
def pySplitNL (s : List Char) : List (List Char) := splitNLAux s []

/-- Python substring test `pat in hay`. -/
def pyContains (hay pat : List Char) : Bool :=
  match hay with
  | [] => pat.isEmpty
  | _ :: rest => pat.isPrefixOf hay || pyContains rest pat

/-- Python `hay.count(pat)` for non-empty `pat`: number of non-overlapping
occurrences, scanning left to right. -/
def pyCount (hay pat : List Char) : Nat :=
  match hay with
  | [] => 0
  | c :: rest =>
    if pat ≠ [] ∧ pat.isPrefixOf (c :: rest) then
      pyCount (rest.drop (pat.length - 1)) pat + 1
    else
      pyCount rest pat
termination_by hay.length
decreasing_by
  · simp only [List.length_cons, List.length_drop]; omega
  · simp only [List.length_cons]; omega

/-- `re` word character `\w` (ASCII): letters, digits, underscore. -/
def isWordChar (c : Char) : Bool := c.isAlphanum || c = '_'

/-- The character of `s` at index `i` satisfies `p` (false when out of range). -/
def charAt (s : List Char) (i : Nat) (p : Char → Bool) : Bool :=
  match s.get? i with
  | some c => p c
  | none => false

/-- All characters of `s` in index range `[a, b)` satisfy `p`
(false when the range runs past the end of `s`). -/
def allIn (s : List Char) (a b : Nat) (p : Char → Bool) : Bool :=
  (List.range' a (b - a)).all fun t => charAt s t p

/-- `re` word boundary `\b` between indices `i-1` and `i`
(positions outside the string count as non-word). -/
def wordBoundary (s : List Char) (i : Nat) : Bool :=
  (if i = 0 then false else charAt s (i - 1) isWordChar) != charAt s i isWordChar

/-- Index just past the run of whitespace starting at `i` (greedy `\s*`). -/
def skipSpaces (s : List Char) (i : Nat) : Nat :=
  i + ((s.drop i).takeWhile pyIsSpace).length

/-- `pat` occurs in `s` starting at index `i`. -/
def prefixAt (s : List Char) (i : Nat) (pat : List Char) : Bool :=
  pat.isPrefixOf (s.drop i)

/-- Character class `[\w\.-]` of the email pattern. -/
def isEmailChar (c : Char) : Bool := isWordChar c || c = '.' || c = '-'

/-- `re.search(r'\b[\w\.-]+@[\w\.-]+\.\w+\b', text)`: some match exists.
A match is an `@` at index `j` preceded by a non-empty `[\w.-]` run whose
start sits on a word boundary, and followed by a non-empty `[\w.-]` run, a
literal dot at `d`, and at least one word character; the trailing `\b` always
holds at the end of the maximal `\w+` run. -/
def matchEmail (s : List Char) : Bool :=
  (List.range s.length).any fun j =>
    charAt s j (· = '@') &&
    ((List.range j).any fun i =>
      wordBoundary s i && decide (i < j) && allIn s i j isEmailChar) &&
    ((List.range s.length).any fun d =>
      decide (j + 2 ≤ d) && charAt s d (· = '.') &&
      allIn s (j + 1) d isEmailChar && charAt s (d + 1) isWordChar)

/-- `len` digits of `s` starting at index `i`. -/
def digitsAt (s : List Char) (i len : Nat) : Bool :=
  allIn s i (i + len) Char.isDigit

/-- Skip one optional separator `[-.]?` at index `i` (greedy; the following
required digit cannot be a separator, so the match is deterministic). -/
def sepSkip (s : List Char) (i : Nat) : Nat :=
  match s.get? i with
  | some c => if c = '-' || c = '.' then i + 1 else i
  | none => i

/-- `re.search(r'\b\d{3}[-.]?\d{3}[-.]?\d{4}\b', text)`: some match exists. -/
def matchPhone (s : List Char) : Bool :=
  (List.range s.length).any fun i =>
    (decide (i = 0) || !charAt s (i - 1) isWordChar) &&
    digitsAt s i 3 &&
    (let j := sepSkip s (i + 3)
     digitsAt s j 3 &&
     (let k := sepSkip s (j + 3)
      digitsAt s k 4 && !charAt s (k + 4) isWordChar))

/-- `re.findall(r'\b(19|20)\d{2}\b', text)`.  `findall` with a capture group
returns the text of the group, i.e. the string `"19"` or `"20"` for every
four-digit year found; the analyzer then converts those strings with `int`
(the `isdigit` filter never rejects them).  We model the resulting list of
integers directly.  `prev` is the character before the current scan position
(`none` at the start of the string); matches are non-overlapping, scanned
left to right. -/
def yearScan (prev : Option Char) : List Char → List Nat
  | c1 :: c2 :: c3 :: c4 :: rest =>
    if (match prev with | some p => !isWordChar p | none => true) &&
       ((c1 = '1' && c2 = '9') || (c1 = '2' && c2 = '0')) &&
       c3.isDigit && c4.isDigit &&
       (match rest.head? with | some nx => !isWordChar nx | none => true)
    then (if c1 = '1' then 19 else 20) :: yearScan (some c4) rest
    else yearScan (some c1) (c2 :: c3 :: c4 :: rest)
  | _ => []

/-- The second half of the range pattern: `(\d{4}|present|current)`. -/
def rangeEnd (s : List Char) (k : Nat) : Bool :=
  digitsAt s k 4 || prefixAt s k "present".data || prefixAt s k "current".data

/-- `re.findall(r'(\d{4})\s*[-–]\s*(\d{4}|present|current)', text.lower())`
is non-empty: four digits, optional whitespace, a hyphen or en dash,
optional whitespace, then four digits or `present`/`current`. -/
def matchDateRange (s : List Char) : Bool :=
  (List.range s.length).any fun i =>
    digitsAt s i 4 &&
    (let j := skipSpaces s (i + 4)
     charAt s j (fun c => c = '-' || c = '–') &&
     rangeEnd s (skipSpaces s (j + 1)))

/-- `re.search(r'\d+%', text)`: a digit immediately followed by `%`. -/
def matchNumPercent (s : List Char) : Bool :=
  (List.range s.length).any fun i =>
    charAt s i Char.isDigit && charAt s (i + 1) (· = '%')

/-- The noun alternatives of the quantification pattern. -/
def metricNouns : List (List Char) :=
  ["users".data, "customers".data, "projects".data, "team".data, "members".data]

/-- `re.search(r'\d+\s*(users|customers|projects|team|members)', text_lower)`:
a digit, optional whitespace, then one of the nouns. -/
def matchNumberNoun (s : List Char) : Bool :=
  (List.range s.length).any fun i =>
    charAt s i Char.isDigit &&
    (metricNouns.any fun w => prefixAt s (skipSpaces s (i + 1)) w)

/-- `re.search(r'\$\d+', text)`: a dollar sign followed by a digit. -/
def matchMoney (s : List Char) : Bool :=
  (List.range s.length).any fun i =>
    charAt s i (· = '$') && charAt s (i + 1) Char.isDigit

/-- The word alternatives of the location pattern. -/
def locationWords : List (List Char) :=
  ["city".data, "state".data, "country".data, "location".data]

/-- `re.search(r'\b(city|state|country|location)\b', text.lower())`. -/
def matchLocation (s : List Char) : Bool :=
  (List.range s.length).any fun i =>
    locationWords.any fun w =>
      prefixAt s i w &&
      (decide (i = 0) || !charAt s (i - 1) isWordChar) &&
      !charAt s (i + w.length) isWordChar

/-- `re.search(r'\d+%|\d+x|improved|increased|reduced|achieved', bullet_text)`. -/
def matchOutcome (s : List Char) : Bool :=
  matchNumPercent s ||
  ((List.range s.length).any fun i =>
    charAt s i Char.isDigit && charAt s (i + 1) (· = 'x')) ||
  pyContains s "improved".data || pyContains s "increased".data ||
  pyContains s "reduced".data || pyContains s "achieved".data

/-- Character class `[|_=+\[\]{}]` of the layout-punctuation pattern. -/
def isLayoutChar (c : Char) : Bool :=
  c = '|' || c = '_' || c = '=' || c = '+' || c = '[' || c = ']' ||
  c = '\x7b' || c = '\x7d'

/-- `self.essential_sections` from `__init__`: canonical section names, in
insertion order, each with its keyword aliases. -/
def essentialSections : List (String × List String) :=
  [("contact", ["email", "phone", "address", "linkedin", "contact", "mobile"]),
   ("summary", ["summary", "objective", "profile", "about"]),
   ("skills", ["skills", "technologies", "tools", "proficiencies", "expertise",
               "competencies"]),
   ("experience", ["experience", "work", "employment", "job", "internship",
                   "career"]),
   ("education", ["education", "university", "college", "degree", "academic",
                  "qualification"]),
   ("projects", ["projects", "portfolio", "work samples"]),
   ("certifications", ["certifications", "certificates", "certified", "training"])]

/-- `self.action_verbs` from `__init__`. -/
def actionVerbs : List String :=
  ["developed", "created", "built", "designed", "implemented", "led", "managed",
   "improved", "optimized", "achieved", "delivered", "launched", "established",
   "increased", "reduced", "streamlined", "automated", "coordinated", "executed",
   "analyzed", "researched", "collaborated", "initiated", "spearheaded"]

/-- `self.technical_skills` from `__init__`. -/
def technicalSkills : List String :=
  ["python", "java", "javascript", "c++", "sql", "react", "node.js", "angular",
   "aws", "azure", "gcp", "docker", "kubernetes", "git", "agile", "scrum",
   "machine learning", "data analysis", "tensorflow", "pytorch", "pandas",
   "rest api", "microservices", "ci/cd", "devops", "linux", "mongodb",
   "postgresql"]

/-- The instance state set up by `StandardATSAnalyzer.__init__` (the three
keyword tables; the class has no other state and never mutates them). -/
structure Analyzer where
  essential_sections : List (String × List String)
  action_verbs : List String
  technical_skills : List String
deriving DecidableEq, Repr

/-- `StandardATSAnalyzer()` — the state every constructed instance has. -/
def Analyzer.init : Analyzer :=
  { essential_sections := essentialSections
    action_verbs := actionVerbs
    technical_skills := technicalSkills }

/-- The sections scored 20 points and flagged CRITICAL when missing. -/
def criticalSections : List String := ["contact", "skills", "experience", "education"]

/-- `_evaluate_parsability(text)`.  The float threshold comparisons
(`> 0.15`, `> 0.05`, `> 0.3`) are modelled as the equivalent exact rational
comparisons (the ratios are rationals with small denominators, so IEEE
rounding never crosses these thresholds). -/
def evalParsability (text : List Char) : Int × List String :=
  let words := pySplitWS text
  let shortWords := words.filter fun w =>
    decide (w.length ≤ 2) && !w.isEmpty && w.all Char.isAlpha
  let brokenWords : Bool := 100 * shortWords.length > 15 * max words.length 1
  let specialChars := (text.filter isLayoutChar).length
  let layoutChars : Bool := 100 * specialChars > 5 * max text.length 1
  let lines := pySplitNL text
  let veryShortLines := lines.filter fun l =>
    decide (0 < (pyStrip l).length) && decide ((pyStrip l).length < 10)
  let fragmented : Bool := 10 * veryShortLines.length > 3 * max lines.length 1
  let tooShort : Bool := text.length < 300
  let score : Int :=
    100 - (if brokenWords then 30 else 0) - (if layoutChars then 25 else 0)
        - (if fragmented then 20 else 0) - (if tooShort then 25 else 0)
  let issues :=
    (if brokenWords then
       ["High ratio of broken/garbled words detected (OCR quality issue)"] else []) ++
    (if layoutChars then
       ["Excessive special characters detected - may indicate tables/columns"] else []) ++
    (if fragmented then
       ["Inconsistent line lengths - reading order may be disrupted"] else []) ++
    (if tooShort then
       ["Resume is too short (minimum 300 characters recommended)"] else [])
  (max 0 score, issues)

/-- `_evaluate_sections(text_lower)`.  Returns the score, the issues and the
`detected` mapping (an association list in the dict's insertion order).
`String.capitalize` models `section_name.title()` on the single-word
section names. -/
def evalSections (sections : List (String × List String)) (textLower : List Char) :
    Int × List String × List (String × Bool) :=
  let detected := sections.map fun nk =>
    (nk.1, nk.2.any fun kw => pyContains textLower kw.data)
  let score : Int := (detected.map fun nf =>
    if nf.2 then (if criticalSections.contains nf.1 then (20 : Int) else 10)
    else 0).sum
  let issues := detected.filterMap fun nf =>
    if nf.2 then none
    else if criticalSections.contains nf.1 then
      some ("CRITICAL: Missing " ++ nf.1.capitalize ++ " section")
    else if nf.1 = "projects" then
      some ("Missing " ++ nf.1.capitalize ++ " section (important for freshers)")
    else none
  (min 100 score, issues, detected)

/-- `_evaluate_contact_info(text)`. -/
def evalContactInfo (text : List Char) : Int × List String :=
  let noEmail : Bool := !matchEmail text
  let noPhone : Bool := !matchPhone text
  let lines := (pySplitNL text).filterMap fun l =>
    if (pyStrip l).isEmpty then none else some (pyStrip l)
  let longFirstLine : Bool :=
    match lines with
    | [] => false
    | l0 :: _ => (pySplitWS l0).length > 5
  let noLinkedin : Bool := !pyContains (pyLower text) "linkedin".data
  let noLocation : Bool := !matchLocation (pyLower text)
  let score : Int :=
    100 - (if noEmail then 35 else 0) - (if noPhone then 30 else 0)
        - (if longFirstLine then 10 else 0) - (if noLinkedin then 15 else 0)
        - (if noLocation then 10 else 0)
  let issues :=
    (if noEmail then ["CRITICAL: Missing email address"] else []) ++
    (if noPhone then ["CRITICAL: Missing or improperly formatted phone number"] else []) ++
    (if longFirstLine then ["First line should be your full name only"] else []) ++
    (if noLinkedin then ["Missing LinkedIn profile URL"] else []) ++
    (if noLocation then ["Location information not clearly stated"] else [])
  (max 0 score, issues)

/-- Keeps the first occurrence of each element, in order (the key order of a
Python dict built by repeated insertion). -/
def firstOccsAux (seen : List (List Char)) : List (List Char) → List (List Char)
  | [] => []
  | w :: rest =>
    if seen.contains w then firstOccsAux seen rest
    else w :: firstOccsAux (w :: seen) rest

/-- `_evaluate_keywords(text_lower, text)`. -/
def evalKeywords (skills verbs : List String) (textLower text : List Char) :
    Int × List String :=
  let foundSkills := skills.filter fun sk => pyContains textLower sk.data
  let skillCount := foundSkills.length
  let skillPts : Int :=
    if skillCount ≥ 12 then 40 else if skillCount ≥ 8 then 30
    else if skillCount ≥ 5 then 20 else if skillCount ≥ 3 then 10 else 0
  let skillIssues :=
    if skillCount < 3 then ["Very few relevant technical keywords found"] else []
  let verbCount := (verbs.filter fun v => pyContains textLower v.data).length
  let verbPts : Int :=
    if verbCount ≥ 8 then 30 else if verbCount ≥ 5 then 20
    else if verbCount ≥ 3 then 10 else 0
  let verbIssues :=
    if verbCount < 3 then ["Insufficient action verbs in experience descriptions"] else []
  let hasPercentages := matchNumPercent text
  let hasNumbers := matchNumberNoun textLower
  let hasMoney := matchMoney text
  let metricsCount : Nat :=
    (if hasPercentages then 1 else 0) + (if hasNumbers then 1 else 0) +
    (if hasMoney then 1 else 0)
  let metricPts : Int := if metricsCount ≥ 2 then 30 else if metricsCount = 1 then 15 else 0
  let metricIssues :=
    if metricsCount = 0 then
      ["Missing quantifiable achievements (add metrics, percentages, numbers)"] else []
  let words := pySplitWS textLower
  let longWords := words.filter fun w => w.length > 4
  let stuffedWords := (firstOccsAux [] longWords).filter fun w => longWords.count w > 10
  let stuffPts : Int := if stuffedWords ≠ [] then 15 else 0
  let stuffIssues :=
    if stuffedWords ≠ [] then
      ["Possible keyword stuffing detected: " ++
        String.intercalate ", " ((stuffedWords.take 3).map fun w => String.mk w)]
    else []
  let score : Int := skillPts + verbPts + metricPts - stuffPts
  (min 100 score, skillIssues ++ verbIssues ++ metricIssues ++ stuffIssues)

/-- `dict.get(key, False)` on the detected-sections mapping. -/
def lookupBool (d : List (String × Bool)) (k : String) : Bool :=
  match d.lookup k with
  | some b => b
  | none => false

/-- The `exp_keywords` list of `_evaluate_experience_projects`. -/
def expKeywords : List String := ["years", "year", "months", "month", "present", "current"]

/-- `_evaluate_experience_projects(text_lower, detected_sections)`.  Returns
the score, the issues and the `is_fresher` flag. -/
def evalExperienceProjects (textLower : List Char) (detected : List (String × Bool)) :
    Int × List String × Bool :=
  let hasExperience := lookupBool detected "experience"
  let hasProjects := lookupBool detected "projects"
  let expMentions := (expKeywords.filter fun kw => pyContains textLower kw.data).length
  let isFresher : Bool := !hasExperience || expMentions < 2
  let scoreIssues : Int × List String :=
    if isFresher then
      if !hasProjects then
        (40, ["CRITICAL: No projects section found (essential for freshers)"])
      else if pyCount textLower "project".data < 2 then
        (60, ["Only one project listed - add at least 2-3 substantial projects"])
      else (100, [])
    else
      let score1 : Int := if !hasExperience then 30 else 100
      let issues1 :=
        if !hasExperience then
          ["CRITICAL: No experience section found (essential for experienced candidates)"]
        else []
      let score2 : Int := if !hasProjects then score1 - 20 else score1
      let issues2 := issues1 ++
        (if !hasProjects then
          ["Consider adding a projects section to showcase additional work"] else [])
      (score2, issues2)
  (max 0 scoreIssues.1, scoreIssues.2, isFresher)

/-- The bullet glyphs of `_evaluate_bullet_points`. -/
def bulletMarks : List Char := ['•', '-', '*', '→', '·']

/-- A stripped line starts with one of the bullet glyphs. -/
def isBulletLine (l : List Char) : Bool :=
  match pyStrip l with
  | [] => false
  | c :: _ => bulletMarks.contains c

/-- `bullet.strip().lstrip('•-*→·').strip().lower()`. -/
def bulletText (l : List Char) : List Char :=
  pyLower (pyStrip ((pyStrip l).dropWhile fun c => bulletMarks.contains c))

/-- One bullet is weak when fewer than 2 of the 3 structural signals hold. -/
def isWeakBullet (verbs skills : List String) (l : List Char) : Bool :=
  let bt := bulletText l
  let hasActionVerb := verbs.any fun v => v.data.isPrefixOf bt
  let hasTool := skills.any fun sk => pyContains bt sk.data
  let hasOutcome := matchOutcome bt
  ((if hasActionVerb then 1 else 0) + (if hasTool then 1 else 0) +
   (if hasOutcome then (1 : Nat) else 0)) < 2

/-- `_evaluate_bullet_points(text)`. -/
def evalBulletPoints (verbs skills : List String) (text : List Char) :
    Int × List String :=
  let lines := pySplitNL text
  let bulletLines := lines.filter isBulletLine
  if bulletLines.isEmpty then
    (max 0 (100 - 40),
     ["CRITICAL: No bullet points found - use bullets for achievements"])
  else
    let weakBullets := ((bulletLines.take 10).filter (isWeakBullet verbs skills)).length
    let score : Int :=
      if weakBullets > 5 then 100 - 30
      else if weakBullets > 2 then 100 - 15
      else 100
    let issues :=
      if weakBullets > 5 then
        ["Many weak bullet points - use format: Action Verb + Task + Method + Outcome"]
      else if weakBullets > 2 then
        ["Some bullet points lack structure - add action verbs and outcomes"]
      else []
    (max 0 score, issues)

/-- Count of adjacent pairs `date_years[i] >= date_years[i+1]`. -/
def descendingPairs : List Nat → Nat
  | a :: b :: rest => (if a ≥ b then 1 else 0) + descendingPairs (b :: rest)
  | _ => 0

/-- `_evaluate_dates(text)`.  `dates` is the `findall` result on the year
pattern (the captured groups, as integers — see `yearScan`); the float
comparison `< 0.5` is modelled as the equivalent exact comparison. -/
def evalDates (text : List Char) : Int × List String :=
  let dates := yearScan none text
  if dates.length < 2 then
    (max 0 (100 - 40),
     ["Missing dates for experience/education - add MM/YYYY format dates"])
  else
    let noRanges : Bool := !matchDateRange (pyLower text)
    let dateYears := dates
    let badOrder : Bool :=
      if dateYears.length ≥ 3 then
        2 * descendingPairs dateYears < max (dateYears.length - 1) 1
      else false
    let score : Int := 100 - (if noRanges then 20 else 0) - (if badOrder then 15 else 0)
    let issues :=
      (if noRanges then ["Use date ranges (e.g., '2020 - 2023') for positions"] else []) ++
      (if badOrder then
        ["Dates should be in reverse chronological order (most recent first)"] else [])
    (max 0 score, issues)

/-- Python `min(caps, key=lambda x: x[0])` as an `Option`: the first pair
with the least first component (`none` on the empty list). -/
def minCap : List (Int × String) → Option (Int × String)
  | [] => none
  | c :: rest =>
    match minCap rest with
    | none => some c
    | some m => if c.1 ≤ m.1 then some c else some m

/-- `_apply_score_caps(raw_score, parsability, is_fresher, bullet_score,
keyword_score, detected_sections)`. -/
def applyScoreCaps (rawScore parsability : Int) (isFresher : Bool)
    (bulletScore keywordScore : Int) (detected : List (String × Bool)) :
    Int × String :=
  let caps : List (Int × String) :=
    (if parsability < 60 then [((55 : Int), "Parsability issues")] else []) ++
    (if isFresher && !lookupBool detected "projects" then
      [((60 : Int), "No projects (fresher)")] else []) ++
    (if bulletScore < 60 then [((65 : Int), "Weak bullet points")] else []) ++
    (if keywordScore < 50 then [((70 : Int), "Insufficient keywords")] else [])
  match minCap caps with
  | some mc => if rawScore > mc.1 then (mc.1, mc.2) else (rawScore, "No cap applied")
  | none => (rawScore, "No cap applied")

/-- `_generate_strengths_weaknesses(...)`. -/
def generateStrengthsWeaknesses (parsability sectionScore contact keyword
    expProject bullet dateScore : Int) (capReason : String) :
    List String × List String :=
  let strengths :=
    (if parsability ≥ 80 then ["Clean, ATS-parsable format"] else []) ++
    (if sectionScore ≥ 80 then ["All essential sections present"] else []) ++
    (if contact ≥ 80 then ["Complete contact information"] else []) ++
    (if keyword ≥ 70 then ["Good keyword density and relevance"] else []) ++
    (if bullet ≥ 80 then ["Well-structured bullet points with outcomes"] else []) ++
    (if dateScore ≥ 80 then ["Proper chronological organization"] else [])
  let weaknesses :=
    (if parsability < 60 then ["OCR quality issues affecting parsability"] else []) ++
    (if sectionScore < 60 then ["Missing critical resume sections"] else []) ++
    (if contact < 60 then ["Incomplete contact information"] else []) ++
    (if keyword < 50 then ["Insufficient relevant keywords and skills"] else []) ++
    (if expProject < 60 then ["Weak experience/project presentation"] else []) ++
    (if bullet < 60 then ["Bullet points lack structure and impact"] else []) ++
    (if dateScore < 60 then ["Missing or inconsistent dates"] else []) ++
    (if capReason ≠ "No cap applied" then
      ["Score capped due to: " ++ capReason] else [])
  (strengths, weaknesses)

/-- The result dictionary of `analyze`.  The short-input early return omits
the keys `raw_score`, `cap_applied` and `detected_sections`; absence of a
key is modelled as `none` in the corresponding `Option` field.  The two
mappings are association lists in the dict's insertion order. -/
structure AnalysisResult where
  score : Int
  raw_score : Option Int
  cap_applied : Option String
  component_scores : List (String × Int)
  issues : List String
  strengths : List String
  weaknesses : List String
  detected_sections : Option (List (String × Bool))
deriving DecidableEq, Repr

/-- The early return of `analyze` for empty or short input. -/
def shortResult : AnalysisResult :=
  { score := 0
    raw_score := none
    cap_applied := none
    component_scores := []
    issues := ["Resume text is too short or empty"]
    strengths := []
    weaknesses := ["Insufficient content for analysis"]
    detected_sections := none }

/-- The body of `analyze` after the short-text check.  The raw score
`int(p*0.15 + s*0.20 + c*0.10 + k*0.25 + e*0.15 + b*0.10 + d*0.05)` is
modelled as the exact truncated division `(p*15 + … + d*5).tdiv 100`:
the component scores are integers, and for every combination of values the
evaluators can produce, the IEEE-double computation of the source equals
this exact value. -/
def Analyzer.analyzeFull (A : Analyzer) (resumeText : String) : AnalysisResult :=
  let text := resumeText.data
  let textLower := pyLower text
  let parsability := evalParsability text
  let sections := evalSections A.essential_sections textLower
  let contact := evalContactInfo text
  let keywords := evalKeywords A.technical_skills A.action_verbs textLower text
  let expProjects := evalExperienceProjects textLower sections.2.2
  let bullets := evalBulletPoints A.action_verbs A.technical_skills text
  let dates := evalDates text
  let rawScore : Int :=
    (parsability.1 * 15 + sections.1 * 20 + contact.1 * 10 + keywords.1 * 25 +
     expProjects.1 * 15 + bullets.1 * 10 + dates.1 * 5).tdiv 100
  let finalCap := applyScoreCaps rawScore parsability.1 expProjects.2.2
    bullets.1 keywords.1 sections.2.2
  let allIssues := parsability.2 ++ sections.2.1 ++ contact.2 ++ keywords.2 ++
    expProjects.2.1 ++ bullets.2 ++ dates.2
  let sw := generateStrengthsWeaknesses parsability.1 sections.1 contact.1
    keywords.1 expProjects.1 bullets.1 dates.1 finalCap.2
  { score := finalCap.1
    raw_score := some rawScore
    cap_applied := some finalCap.2
    component_scores :=
      [("parsability", parsability.1),
       ("section_detection", sections.1),
       ("contact_information", contact.1),
       ("keyword_matching", keywords.1),
       ("experience_projects", expProjects.1),
       ("bullet_structure", bullets.1),
       ("dates_chronology", dates.1)]
    issues := allIssues
    strengths := sw.1
    weaknesses := sw.2
    detected_sections := some sections.2.2 }

/-- `StandardATSAnalyzer.analyze(resume_text)`: the short-text guard
`if not resume_text or len(resume_text.strip()) < 50`, then the full
evaluation. -/
def Analyzer.analyze (A : Analyzer) (resumeText : String) : AnalysisResult :=
  if resumeText.data = [] ∨ (pyStrip resumeText.data).length < 50 then shortResult
  else A.analyzeFull resumeText

/-- `analyze` on a freshly constructed `StandardATSAnalyzer()`. -/
def analyze (resumeText : String) : AnalysisResult :=
  Analyzer.init.analyze resumeText

/-! ### Accessors for the seven component scores of a full evaluation -/

/-- `parsability_score` computed by `analyze` for input `t`. -/
def parsabilityOf (t : String) : Int := (evalParsability t.data).1

/-- `detected_sections` computed by `analyze` for input `t`. -/
def detectedOf (t : String) : List (String × Bool) :=
  (evalSections Analyzer.init.essential_sections (pyLower t.data)).2.2

/-- `section_score` computed by `analyze` for input `t`. -/
def sectionScoreOf (t : String) : Int :=
  (evalSections Analyzer.init.essential_sections (pyLower t.data)).1

/-- `contact_score` computed by `analyze` for input `t`. -/
def contactOf (t : String) : Int := (evalContactInfo t.data).1

/-- `keyword_score` computed by `analyze` for input `t`. -/
def keywordOf (t : String) : Int :=
  (evalKeywords Analyzer.init.technical_skills Analyzer.init.action_verbs
    (pyLower t.data) t.data).1

/-- `exp_project_score` computed by `analyze` for input `t`. -/
def expProjectOf (t : String) : Int :=
  (evalExperienceProjects (pyLower t.data) (detectedOf t)).1

/-- `is_fresher` computed by `analyze` for input `t`. -/
def fresherOf (t : String) : Bool :=
  (evalExperienceProjects (pyLower t.data) (detectedOf t)).2.2

/-- `bullet_score` computed by `analyze` for input `t`. -/
def bulletOf (t : String) : Int :=
  (evalBulletPoints Analyzer.init.action_verbs Analyzer.init.technical_skills t.data).1

/-- `date_score` computed by `analyze` for input `t`. -/
def dateOf (t : String) : Int := (evalDates t.data).1

/-- `raw_score` computed by `analyze` for input `t`. -/
def rawScoreOf (t : String) : Int :=
  (parsabilityOf t * 15 + sectionScoreOf t * 20 + contactOf t * 10 +
   keywordOf t * 25 + expProjectOf t * 15 + bulletOf t * 10 +
   dateOf t * 5).tdiv 100

/-! ### Plumbing lemmas -/

lemma analyze_past (t : String) (h : 50 ≤ (pyStrip t.data).length) :
    analyze t = Analyzer.init.analyzeFull t := by
  unfold analyze Analyzer.analyze
  rw [if_neg]
  rintro (h1 | h2)
  · rw [h1] at h; simp [pyStrip] at h
  · omega

lemma analyzeFull_score (t : String) :
    (Analyzer.init.analyzeFull t).score =
      (applyScoreCaps (rawScoreOf t) (parsabilityOf t) (fresherOf t)
        (bulletOf t) (keywordOf t) (detectedOf t)).1 := rfl

lemma analyzeFull_raw (t : String) :
    (Analyzer.init.analyzeFull t).raw_score = some (rawScoreOf t) := rfl

lemma analyzeFull_cap (t : String) :
    (Analyzer.init.analyzeFull t).cap_applied =
      some (applyScoreCaps (rawScoreOf t) (parsabilityOf t) (fresherOf t)
        (bulletOf t) (keywordOf t) (detectedOf t)).2 := rfl

lemma analyzeFull_components (t : String) :
    (Analyzer.init.analyzeFull t).component_scores =
      [("parsability", parsabilityOf t),
       ("section_detection", sectionScoreOf t),
       ("contact_information", contactOf t),
       ("keyword_matching", keywordOf t),
       ("experience_projects", expProjectOf t),
       ("bullet_structure", bulletOf t),
       ("dates_chronology", dateOf t)] := rfl

lemma analyzeFull_detected (t : String) :
    (Analyzer.init.analyzeFull t).detected_sections = some (detectedOf t) := rfl

/-! ### Bounds on the component scores -/

lemma evalParsability_bounds (t : List Char) :
    0 ≤ (evalParsability t).1 ∧ (evalParsability t).1 ≤ 100 := by
  unfold evalParsability
  dsimp only
  refine ⟨le_max_left _ _, max_le (by norm_num) ?_⟩
  split_ifs <;> norm_num

lemma evalSections_bounds (secs : List (String × List String)) (tl : List Char) :
    0 ≤ (evalSections secs tl).1 ∧ (evalSections secs tl).1 ≤ 100 := by
  unfold evalSections
  dsimp only
  refine ⟨le_min (by norm_num) ?_, min_le_left _ _⟩
  apply List.sum_nonneg
  intro x hx
  simp only [List.mem_map] at hx
  obtain ⟨nf, -, rfl⟩ := hx
  split_ifs <;> norm_num

lemma evalContactInfo_bounds (t : List Char) :
    0 ≤ (evalContactInfo t).1 ∧ (evalContactInfo t).1 ≤ 100 := by
  unfold evalContactInfo
  dsimp only
  refine ⟨le_max_left _ _, max_le (by norm_num) ?_⟩
  split_ifs <;> norm_num

set_option maxHeartbeats 1000000 in
lemma evalKeywords_bounds (sk vb : List String) (tl t : List Char) :
    -15 ≤ (evalKeywords sk vb tl t).1 ∧ (evalKeywords sk vb tl t).1 ≤ 100 := by
  unfold evalKeywords
  dsimp only
  refine ⟨le_min (by norm_num) ?_, min_le_left _ _⟩
  split_ifs <;> omega

lemma evalExperienceProjects_bounds (tl : List Char) (d : List (String × Bool)) :
    0 ≤ (evalExperienceProjects tl d).1 ∧ (evalExperienceProjects tl d).1 ≤ 100 := by
  unfold evalExperienceProjects
  dsimp only
  refine ⟨le_max_left _ _, max_le (by norm_num) ?_⟩
  split_ifs <;> norm_num

lemma evalBulletPoints_values (vb sk : List String) (t : List Char) :
    (evalBulletPoints vb sk t).1 = 60 ∨ (evalBulletPoints vb sk t).1 = 70 ∨
    (evalBulletPoints vb sk t).1 = 85 ∨ (evalBulletPoints vb sk t).1 = 100 := by
  unfold evalBulletPoints
  dsimp only
  split_ifs <;> norm_num

lemma evalDates_bounds (t : List Char) :
    60 ≤ (evalDates t).1 ∧ (evalDates t).1 ≤ 100 := by
  unfold evalDates
  dsimp only
  split_ifs <;> norm_num

lemma tdiv100_bounds (a : Int) (h1 : 0 ≤ a) (h2 : a ≤ 10000) :
    0 ≤ a.tdiv 100 ∧ a.tdiv 100 ≤ 100 := by
  rw [Int.tdiv_eq_ediv h1 (by norm_num)]
  refine ⟨Int.ediv_nonneg h1 (by norm_num), ?_⟩
  calc a / 100 ≤ 10000 / 100 := Int.ediv_le_ediv (by norm_num) h2
    _ = 100 := by norm_num

/-! ### Cap application -/

/-- The set of applicable caps, exactly as claim C3 lists it:
55 when parsability is under 60, 60 for a fresher with no detected projects
section, 65 when the bullet score is under 60, 70 when the keyword score is
under 50. -/
def capClaimSet (parsability : Int) (fresherNoProjects : Bool)
    (bulletScore keywordScore : Int) : List Int :=
  (if parsability < 60 then [55] else []) ++
  (if fresherNoProjects then [60] else []) ++
  (if bulletScore < 60 then [65] else []) ++
  (if keywordScore < 50 then [70] else [])

/-- The reason carried by each cap value, per claim C3. -/
def capClaimReason (v : Int) : String :=
  if v = 55 then "Parsability issues"
  else if v = 60 then "No projects (fresher)"
  else if v = 65 then "Weak bullet points"
  else "Insufficient keywords"

/-- The minimum of a list of cap values (claim C3's "its minimum"). -/
def minVal : List Int → Option Int
  | [] => none
  | x :: rest =>
    match minVal rest with
    | none => some x
    | some m => some (min x m)

/-- Claim C3's description of the final score and cap reason: if the cap set
is non-empty and its minimum is strictly below the raw score, the final score
is that minimum and the reason is the one attached to it; otherwise the raw
score stands with the sentinel reason. -/
def capSpec (rawScore : Int) (caps : List Int) : Int × String :=
  match minVal caps with
  | some m => if m < rawScore then (m, capClaimReason m) else (rawScore, "No cap applied")
  | none => (rawScore, "No cap applied")

set_option maxHeartbeats 1000000 in
lemma applyScoreCaps_eq_capSpec (r p : Int) (f : Bool) (b k : Int)
    (d : List (String × Bool)) :
    applyScoreCaps r p f b k d =
      capSpec r (capClaimSet p (f && !lookupBool d "projects") b k) := by
  unfold applyScoreCaps capSpec capClaimSet
  dsimp only
  split_ifs <;>
    simp [minCap, minVal, capClaimReason, gt_iff_lt, min_def]

lemma capSpec_fst_le (r : Int) (caps : List Int) : (capSpec r caps).1 ≤ r := by
  unfold capSpec
  cases h : minVal caps with
  | none => simp
  | some m =>
    dsimp only
    split_ifs with hm
    · simpa using le_of_lt hm
    · simp

set_option maxHeartbeats 1000000 in
lemma capSpec_fst_cases (r p : Int) (f : Bool) (b k : Int) :
    (capSpec r (capClaimSet p f b k)).1 = r ∨
    (55 ≤ (capSpec r (capClaimSet p f b k)).1 ∧
     (capSpec r (capClaimSet p f b k)).1 ≤ 70) := by
  unfold capSpec capClaimSet
  split_ifs <;> simp [minVal, min_def] <;> split_ifs <;> simp

set_option maxHeartbeats 1000000 in
lemma capSpec_snd_not_weak (r p : Int) (f : Bool) (b k : Int) (hb : ¬ b < 60) :
    (capSpec r (capClaimSet p f b k)).2 ≠ "Weak bullet points" := by
  unfold capSpec capClaimSet
  rw [if_neg hb]
  split_ifs <;> simp [minVal, capClaimReason, min_def] <;> split_ifs <;> simp

/-! ### The claims -/

/-- C2: for every input string that is empty or whose trimmed length is
strictly below 50 characters, `analyze` returns immediately with score 0,
an issues list holding exactly the "too short" message, and an empty
component-score mapping (no sub-evaluation result appears; the function is
total, so no exception can arise). -/
theorem C2_short_input_zero (t : String)
    (h : t = "" ∨ (pyStrip t.data).length < 50) :
    (analyze t).score = 0 ∧
    (analyze t).issues = ["Resume text is too short or empty"] ∧
    (analyze t).component_scores = [] := by
  have he : analyze t = shortResult := by
    unfold analyze Analyzer.analyze
    rw [if_pos]
    rcases h with h | h
    · left; rw [h]
    · right; exact h
  rw [he]
  exact ⟨rfl, rfl, rfl⟩

/-- Witness for C2 at the concrete short input `"hi"`. -/
theorem C2_short_input_zero_witness :
    ("hi" = "" ∨ (pyStrip "hi".data).length < 50) ∧
    ((analyze "hi").score = 0 ∧
     (analyze "hi").issues = ["Resume text is too short or empty"] ∧
     (analyze "hi").component_scores = []) :=
  ⟨Or.inr (by decide), C2_short_input_zero "hi" (Or.inr (by decide))⟩

/-- C9: `analyze` is deterministic and stateless — any two analyzer
instances produced by the constructor give identical results on identical
text, in every field. -/
theorem C9_deterministic (a b : Analyzer) (t : String)
    (ha : a = Analyzer.init) (hb : b = Analyzer.init) :
    a.analyze t = b.analyze t := by
  subst ha; subst hb; rfl

/-- Witness for C9 at a concrete pair of instances and text. -/
theorem C9_deterministic_witness :
    Analyzer.init = Analyzer.init ∧
    Analyzer.init.analyze "sample resume text" =
      Analyzer.init.analyze "sample resume text" :=
  ⟨rfl, C9_deterministic Analyzer.init Analyzer.init "sample resume text" rfl rfl⟩

/-- C4: past the short-text check, the final score never exceeds the raw
score (cap application only lowers). -/
theorem C4_cap_monotone (t : String) (h : 50 ≤ (pyStrip t.data).length) :
    (analyze t).raw_score = some (rawScoreOf t) ∧
    (analyze t).score ≤ rawScoreOf t := by
  rw [analyze_past t h]
  refine ⟨analyzeFull_raw t, ?_⟩
  rw [analyzeFull_score, applyScoreCaps_eq_capSpec]
  exact capSpec_fst_le _ _

/-- Witness for C4 at a concrete long-enough input. -/
theorem C4_cap_monotone_witness :
    50 ≤ (pyStrip "Yet another resume sample text with well over fifty characters here".data).length ∧
    ((analyze "Yet another resume sample text with well over fifty characters here").raw_score =
       some (rawScoreOf "Yet another resume sample text with well over fifty characters here") ∧
     (analyze "Yet another resume sample text with well over fifty characters here").score ≤
       rawScoreOf "Yet another resume sample text with well over fifty characters here") :=
  ⟨by decide,
   C4_cap_monotone "Yet another resume sample text with well over fifty characters here" (by decide)⟩

/-- C5: past the short-text check, `raw_score` is the weighted sum
`parsability*0.15 + sections*0.20 + contact*0.10 + keywords*0.25 +
exp_projects*0.15 + bullets*0.10 + dates*0.05` truncated to an integer
(modelled exactly as truncated division of the 100-scaled integer sum). -/
theorem C5_raw_score_weighted_sum (t : String)
    (h : 50 ≤ (pyStrip t.data).length) :
    (analyze t).raw_score =
      some ((parsabilityOf t * 15 + sectionScoreOf t * 20 + contactOf t * 10 +
             keywordOf t * 25 + expProjectOf t * 15 + bulletOf t * 10 +
             dateOf t * 5).tdiv 100) := by
  rw [analyze_past t h]
  exact analyzeFull_raw t

/-- Witness for C5 at a concrete long-enough input. -/
theorem C5_raw_score_weighted_sum_witness :
    50 ≤ (pyStrip "Resume body content that comfortably exceeds the fifty character gate".data).length ∧
    (analyze "Resume body content that comfortably exceeds the fifty character gate").raw_score =
      some ((parsabilityOf "Resume body content that comfortably exceeds the fifty character gate" * 15 +
             sectionScoreOf "Resume body content that comfortably exceeds the fifty character gate" * 20 +
             contactOf "Resume body content that comfortably exceeds the fifty character gate" * 10 +
             keywordOf "Resume body content that comfortably exceeds the fifty character gate" * 25 +
             expProjectOf "Resume body content that comfortably exceeds the fifty character gate" * 15 +
             bulletOf "Resume body content that comfortably exceeds the fifty character gate" * 10 +
             dateOf "Resume body content that comfortably exceeds the fifty character gate" * 5).tdiv 100) :=
  ⟨by decide,
   C5_raw_score_weighted_sum "Resume body content that comfortably exceeds the fifty character gate" (by decide)⟩

/-- C3: past the short-text check, the applicable cap set is exactly
\{55 when parsability < 60, 60 when fresher with no detected projects
section, 65 when bullet score < 60, 70 when keyword score < 50\}; when the
set is non-empty and its minimum is below the raw score the final score is
that minimum with its reason, otherwise the raw score stands with the
"No cap applied" sentinel (`capSpec`/`capClaimSet` state this rule in the
claim's words). -/
theorem C3_cap_rule (t : String) (h : 50 ≤ (pyStrip t.data).length) :
    (analyze t).score =
      (capSpec (rawScoreOf t)
        (capClaimSet (parsabilityOf t)
          (fresherOf t && !lookupBool (detectedOf t) "projects")
          (bulletOf t) (keywordOf t))).1 ∧
    (analyze t).cap_applied =
      some (capSpec (rawScoreOf t)
        (capClaimSet (parsabilityOf t)
          (fresherOf t && !lookupBool (detectedOf t) "projects")
          (bulletOf t) (keywordOf t))).2 := by
  rw [analyze_past t h, analyzeFull_score, analyzeFull_cap,
      applyScoreCaps_eq_capSpec]
  exact ⟨rfl, rfl⟩

/-- Witness for C3 at a concrete long-enough input. -/
theorem C3_cap_rule_witness :
    50 ≤ (pyStrip "Another plain resume sample with more than fifty characters in it".data).length ∧
    ((analyze "Another plain resume sample with more than fifty characters in it").score =
      (capSpec (rawScoreOf "Another plain resume sample with more than fifty characters in it")
        (capClaimSet (parsabilityOf "Another plain resume sample with more than fifty characters in it")
          (fresherOf "Another plain resume sample with more than fifty characters in it" &&
            !lookupBool (detectedOf "Another plain resume sample with more than fifty characters in it") "projects")
          (bulletOf "Another plain resume sample with more than fifty characters in it")
          (keywordOf "Another plain resume sample with more than fifty characters in it"))).1 ∧
     (analyze "Another plain resume sample with more than fifty characters in it").cap_applied =
      some (capSpec (rawScoreOf "Another plain resume sample with more than fifty characters in it")
        (capClaimSet (parsabilityOf "Another plain resume sample with more than fifty characters in it")
          (fresherOf "Another plain resume sample with more than fifty characters in it" &&
            !lookupBool (detectedOf "Another plain resume sample with more than fifty characters in it") "projects")
          (bulletOf "Another plain resume sample with more than fifty characters in it")
          (keywordOf "Another plain resume sample with more than fifty characters in it"))).2) :=
  ⟨by decide,
   C3_cap_rule "Another plain resume sample with more than fifty characters in it" (by decide)⟩

/-- A long-enough input consisting of one over-repeated word: the
keyword-stuffing deduction applies while no points are earned. -/
def stuffedInput : String :=
  "hello hello hello hello hello hello hello hello hello hello hello"

/-- C1 fails as stated: on `stuffedInput` (trimmed length 65 ≥ 50) the
`keyword_matching` component score returned by `analyze` is −15, outside
[0,100] (the keyword evaluator only caps at 100 and can go to
0+0+0−15). -/
theorem C1_counterexample :
    50 ≤ (pyStrip stuffedInput.data).length ∧
    (analyze stuffedInput).component_scores.lookup "keyword_matching" =
      some (-15) :=
  ⟨by decide, by decide⟩

/-- C1 amended: past the short-text check every component score except
`keyword_matching` lies in [0,100]; `keyword_matching` lies in [−15,100];
and the final score lies in [0,100]. -/
theorem C1_amended_score_ranges (t : String)
    (h : 50 ≤ (pyStrip t.data).length) :
    (analyze t).component_scores =
      [("parsability", parsabilityOf t),
       ("section_detection", sectionScoreOf t),
       ("contact_information", contactOf t),
       ("keyword_matching", keywordOf t),
       ("experience_projects", expProjectOf t),
       ("bullet_structure", bulletOf t),
       ("dates_chronology", dateOf t)] ∧
    (0 ≤ parsabilityOf t ∧ parsabilityOf t ≤ 100) ∧
    (0 ≤ sectionScoreOf t ∧ sectionScoreOf t ≤ 100) ∧
    (0 ≤ contactOf t ∧ contactOf t ≤ 100) ∧
    (-15 ≤ keywordOf t ∧ keywordOf t ≤ 100) ∧
    (0 ≤ expProjectOf t ∧ expProjectOf t ≤ 100) ∧
    (0 ≤ bulletOf t ∧ bulletOf t ≤ 100) ∧
    (0 ≤ dateOf t ∧ dateOf t ≤ 100) ∧
    (0 ≤ (analyze t).score ∧ (analyze t).score ≤ 100) := by
  have hb : bulletOf t = 60 ∨ bulletOf t = 70 ∨ bulletOf t = 85 ∨ bulletOf t = 100 :=
    evalBulletPoints_values _ _ _
  have hd : 60 ≤ dateOf t ∧ dateOf t ≤ 100 := evalDates_bounds t.data
  have hraw : 0 ≤ rawScoreOf t ∧ rawScoreOf t ≤ 100 := by
    have hp : 0 ≤ parsabilityOf t ∧ parsabilityOf t ≤ 100 := evalParsability_bounds t.data
    have hs : 0 ≤ sectionScoreOf t ∧ sectionScoreOf t ≤ 100 := evalSections_bounds _ _
    have hc : 0 ≤ contactOf t ∧ contactOf t ≤ 100 := evalContactInfo_bounds t.data
    have hk : -15 ≤ keywordOf t ∧ keywordOf t ≤ 100 := evalKeywords_bounds _ _ _ _
    have he : 0 ≤ expProjectOf t ∧ expProjectOf t ≤ 100 :=
      evalExperienceProjects_bounds _ _
    unfold rawScoreOf
    rcases hb with hb'|hb'|hb'|hb' <;> rw [hb'] <;>
      (apply tdiv100_bounds <;> omega)
  rw [analyze_past t h]
  refine ⟨analyzeFull_components t, evalParsability_bounds t.data,
    evalSections_bounds _ _, evalContactInfo_bounds t.data,
    evalKeywords_bounds _ _ _ _, evalExperienceProjects_bounds _ _,
    ?_, ⟨by omega, hd.2⟩, ?_⟩
  · rcases hb with hb'|hb'|hb'|hb' <;> rw [hb'] <;> norm_num
  · rw [analyzeFull_score, applyScoreCaps_eq_capSpec]
    rcases capSpec_fst_cases (rawScoreOf t) (parsabilityOf t)
        (fresherOf t && !lookupBool (detectedOf t) "projects")
        (bulletOf t) (keywordOf t) with hc | hc
    · rw [hc]; exact hraw
    · exact ⟨by omega, by omega⟩

/-- Witness for the amended C1 at a concrete long-enough input. -/
theorem C1_amended_score_ranges_witness :
    50 ≤ (pyStrip "An unremarkable resume text used to exercise the analyzer pipeline".data).length ∧
    (0 ≤ (analyze "An unremarkable resume text used to exercise the analyzer pipeline").score ∧
     (analyze "An unremarkable resume text used to exercise the analyzer pipeline").score ≤ 100) :=
  ⟨by decide,
   (C1_amended_score_ranges
     "An unremarkable resume text used to exercise the analyzer pipeline"
     (by decide)).2.2.2.2.2.2.2.2⟩

/-- C10: the bullet-structure score can only be 60, 70, 85 or 100, hence is
at least 60, so the cap condition `bullet_score < 60` never fires and
`cap_applied` is never "Weak bullet points". -/
theorem C10_bullet_floor (t : String) (h : 50 ≤ (pyStrip t.data).length) :
    60 ≤ bulletOf t ∧
    (bulletOf t = 60 ∨ bulletOf t = 70 ∨ bulletOf t = 85 ∨ bulletOf t = 100) ∧
    (analyze t).cap_applied ≠ some "Weak bullet points" := by
  have hv : bulletOf t = 60 ∨ bulletOf t = 70 ∨ bulletOf t = 85 ∨ bulletOf t = 100 :=
    evalBulletPoints_values _ _ _
  have h60 : 60 ≤ bulletOf t := by rcases hv with h'|h'|h'|h' <;> omega
  refine ⟨h60, hv, ?_⟩
  rw [analyze_past t h, analyzeFull_cap, applyScoreCaps_eq_capSpec]
  intro hcontra
  simp only [Option.some.injEq] at hcontra
  exact capSpec_snd_not_weak _ _ _ _ _ (by omega) hcontra

/-- Witness for C10 at a concrete long-enough input. -/
theorem C10_bullet_floor_witness :
    50 ≤ (pyStrip "Plain resume input text that is long enough for full evaluation".data).length ∧
    (60 ≤ bulletOf "Plain resume input text that is long enough for full evaluation" ∧
     (bulletOf "Plain resume input text that is long enough for full evaluation" = 60 ∨
      bulletOf "Plain resume input text that is long enough for full evaluation" = 70 ∨
      bulletOf "Plain resume input text that is long enough for full evaluation" = 85 ∨
      bulletOf "Plain resume input text that is long enough for full evaluation" = 100) ∧
     (analyze "Plain resume input text that is long enough for full evaluation").cap_applied ≠
       some "Weak bullet points") :=
  ⟨by decide,
   C10_bullet_floor "Plain resume input text that is long enough for full evaluation" (by decide)⟩

/-- C8 fails as stated: on the empty (hence short) input the result carries
no `detected_sections` mapping at all (the early-return dictionary omits the
key, modelled as `none`), so the mapping does not have the seven keys on
every call. -/
theorem C8_counterexample : (analyze "").detected_sections = none := rfl

/-- C8 amended: on every call past the short-text check, the
`detected_sections` mapping is present and its keys are exactly the seven
canonical section names, in order; on short inputs the key is absent. -/
theorem C8_amended_sections_total (t : String)
    (h : 50 ≤ (pyStrip t.data).length) :
    ∃ m, (analyze t).detected_sections = some m ∧
      m.map Prod.fst =
        ["contact", "summary", "skills", "experience", "education",
         "projects", "certifications"] := by
  rw [analyze_past t h, analyzeFull_detected]
  exact ⟨detectedOf t, rfl, rfl⟩

/-- Witness for the amended C8 at a concrete long-enough input. -/
theorem C8_amended_sections_total_witness :
    50 ≤ (pyStrip "Simple resume content string long enough to pass the length check".data).length ∧
    ∃ m, (analyze "Simple resume content string long enough to pass the length check").detected_sections = some m ∧
      m.map Prod.fst =
        ["contact", "summary", "skills", "experience", "education",
         "projects", "certifications"] :=
  ⟨by decide,
   C8_amended_sections_total "Simple resume content string long enough to pass the length check" (by decide)⟩

/-- C6 fails as stated: the contradictory state is unreachable.  Inside
`_evaluate_experience_projects` both the branch test and the inner check
read the same `has_experience` variable, and `is_fresher` is defined as
`not has_experience or exp_mentions < 2`, so the non-fresher branch forces
`has_experience` to be true — no input reaches the score-30
missing-experience outcome. -/
theorem C6_counterexample :
    ¬ ∃ (tl : List Char) (d : List (String × Bool)),
        (evalExperienceProjects tl d).2.2 = false ∧
        lookupBool d "experience" = false ∧
        (evalExperienceProjects tl d).1 = 30 ∧
        "CRITICAL: No experience section found (essential for experienced candidates)" ∈
          (evalExperienceProjects tl d).2.1 := by
  rintro ⟨tl, d, hf, he, -, -⟩
  unfold evalExperienceProjects at hf
  dsimp only at hf
  rw [he] at hf
  simp at hf

/-- C6 amended: whenever the non-fresher branch is taken, `has_experience`
is necessarily true, so the sub-evaluation returns 100 (or 80 when the
projects section is missing) and never emits the critical
missing-experience issue. -/
theorem C6_amended_no_contradictory_state (tl : List Char)
    (d : List (String × Bool))
    (h : (evalExperienceProjects tl d).2.2 = false) :
    lookupBool d "experience" = true ∧
    ((evalExperienceProjects tl d).1 = 100 ∨
     ((evalExperienceProjects tl d).1 = 80 ∧ lookupBool d "projects" = false)) ∧
    "CRITICAL: No experience section found (essential for experienced candidates)" ∉
      (evalExperienceProjects tl d).2.1 := by
  unfold evalExperienceProjects at h ⊢
  dsimp only at h ⊢
  have hexp : lookupBool d "experience" = true := by
    cases hE : lookupBool d "experience"
    · rw [hE] at h; simp at h
    · rfl
  rw [h, hexp]
  cases hP : lookupBool d "projects" <;> simp [hP]

/-- Witness for the amended C6 at a concrete non-fresher state. -/
theorem C6_amended_no_contradictory_state_witness :
    (evalExperienceProjects "years present".data
      [("experience", true), ("projects", true)]).2.2 = false ∧
    (lookupBool [("experience", true), ("projects", true)] "experience" = true ∧
     ((evalExperienceProjects "years present".data
        [("experience", true), ("projects", true)]).1 = 100 ∨
      ((evalExperienceProjects "years present".data
          [("experience", true), ("projects", true)]).1 = 80 ∧
       lookupBool [("experience", true), ("projects", true)] "projects" = false)) ∧
     "CRITICAL: No experience section found (essential for experienced candidates)" ∉
       (evalExperienceProjects "years present".data
         [("experience", true), ("projects", true)]).2.1) :=
  ⟨by decide,
   C6_amended_no_contradictory_state "years present".data
     [("experience", true), ("projects", true)] (by decide)⟩

/-- The year extraction as claim C7 (and the spec) word it: the 4-digit
year values of the `\b(19|20)\d{2}\b` matches (same scan as `yearScan`, but
yielding the full year instead of the captured two-digit group). -/
def claimYearValues (prev : Option Char) : List Char → List Nat
  | c1 :: c2 :: c3 :: c4 :: rest =>
    if (match prev with | some p => !isWordChar p | none => true) &&
       ((c1 = '1' && c2 = '9') || (c1 = '2' && c2 = '0')) &&
       c3.isDigit && c4.isDigit &&
       (match rest.head? with | some nx => !isWordChar nx | none => true)
    then ((if c1 = '1' then 1900 else 2000) + 10 * (c3.toNat - 48) + (c4.toNat - 48)) ::
      claimYearValues (some c4) rest
    else claimYearValues (some c1) (c2 :: c3 :: c4 :: rest)
  | _ => []

/-- The input on which the code and claim C7 diverge. -/
def ascendingYearsInput : String :=
  "Education from 1999 - 2005 and postgraduate degree finished 2010"

/-- C7 diverges from the code on `ascendingYearsInput`: the three year
tokens have strictly ascending values 1999 < 2005 < 2010, so the claim's
non-increasing fraction is 0 < 50% and the 15-point chronology deduction
must apply; but `re.findall` with a capture group returns the group, so the
code compares the two-digit captures [19, 20, 20], finds fraction 1/2 ≥
50%, and deducts nothing — the dates score is 100 where the claim demands
at most 85. -/
theorem C7_code_vs_claim :
    50 ≤ (pyStrip ascendingYearsInput.data).length ∧
    yearScan none ascendingYearsInput.data = [19, 20, 20] ∧
    claimYearValues none ascendingYearsInput.data = [1999, 2005, 2010] ∧
    descendingPairs (yearScan none ascendingYearsInput.data) = 1 ∧
    descendingPairs (claimYearValues none ascendingYearsInput.data) = 0 ∧
    2 * descendingPairs (claimYearValues none ascendingYearsInput.data) <
      max ((claimYearValues none ascendingYearsInput.data).length - 1) 1 ∧
    (evalDates ascendingYearsInput.data).1 = 100 ∧
    (analyze ascendingYearsInput).component_scores.lookup "dates_chronology" =
      some 100 :=
  ⟨by decide, by decide, by decide, by decide, by decide, by decide,
   by decide, by decide⟩

end ATS
